import Mathlib

/-
Verification development for the grid-to-grid data transfer engine of the
universal_simulation_coupling_interface repository.

Shallow embedding of src/utils/node.py, src/utils/grid.py and
src/utils/grid_transformer.py.

Modelling conventions:
  - Python floats are modelled as rationals.  A dynamic value stored in a
    node value dictionary is a member of PVal: a rational number, the
    float nan, the Python booleans False (returned by Node.get_value for a
    missing key) and the value None.  Python truthiness and the
    isinstance checks of the source are modelled on PVal; note that in
    Python bool is a subclass of int, so isinstance(False, int) is true.
  - Python dictionaries preserve insertion order; they are modelled as
    association lists, with dictSet updating an existing key in place and
    appending a new key at the end, exactly as a Python dict assignment.
  - Exceptions are modelled with Except String; logging is dropped.
  - The scipy KDTree query of find_nearest_neighbors is external to the
    repository; it is modelled as an exact k-nearest-neighbor search for a
    caller supplied distance function d.  The source calls
    tree.query(coords, k, distance_max), whose third positional parameter
    is the approximation parameter eps, so scipy may answer approximately;
    for the small concrete grids used below (within one tree leaf) the
    answer is exact, and the general theorems do not depend on exactness.
    For k = 1 scipy returns a scalar distance and a scalar index per
    target point instead of lists; QueryRes keeps this shape distinction.
  - Rational division by zero yields 0 in Lean while numpy float division
    by 0.0 yields inf; all statements about weighting keep the distances
    positive, where both semantics agree.
-/

namespace USCI

/-- Dynamic Python value stored in a node value dictionary. -/
inductive PVal where
  | rat (q : ℚ)
  | nan
  | pfalse
  | pnone
deriving DecidableEq

/-- Python truthiness: bool(0) and bool(0.0) are False, bool(nan) is True,
bool(False) is False, bool(None) is False. -/
def PVal.truthy : PVal → Bool
  | .rat q => q != 0
  | .nan => true
  | .pfalse => false
  | .pnone => false

/-- The isinstance(value, int) or isinstance(value, float) test of
Grid.get_node_values.  In Python bool is a subclass of int, so the Python
value False passes this test; None does not. -/
def PVal.isNumeric : PVal → Bool
  | .rat _ => true
  | .nan => true
  | .pfalse => true
  | .pnone => false

/-- Test used in statements: the value is a rational or nan. -/
def PVal.isNanOrRat : PVal → Bool
  | .rat _ => true
  | .nan => true
  | .pfalse => false
  | .pnone => false

/-- Lookup in an association list modelling a Python dict. -/
def dlookup {α β : Type} [DecidableEq α] (d : List (α × β)) (k : α) : Option β :=
  match d with
  | [] => none
  | (k1, v) :: t => if k1 = k then some v else dlookup t k

/-- Python dict assignment d[k] = v: update an existing key in place,
append a new key at the end. -/
def dictSet {α β : Type} [DecidableEq α] (d : List (α × β)) (k : α) (v : β) :
    List (α × β) :=
  match d with
  | [] => [(k, v)]
  | (k1, v1) :: t => if k1 = k then (k, v) :: t else (k1, v1) :: dictSet t k v

/-- Python del d[k] for a dict with unique keys. -/
def dictDel {α β : Type} [DecidableEq α] (d : List (α × β)) (k : α) :
    List (α × β) :=
  match d with
  | [] => []
  | (k1, v1) :: t => if k1 = k then t else (k1, v1) :: dictDel t k

/-- List indexing. -/
def listNth {α : Type} (l : List α) : ℕ → Option α :=
  match l with
  | [] => fun _ => none
  | a :: t => fun i => match i with
    | 0 => some a
    | n + 1 => listNth t n

/-- Last element of a list, as Python l[-1]. -/
def listLast {α : Type} (l : List α) : Option α :=
  match l with
  | [] => none
  | [a] => some a
  | _ :: b :: t => listLast (b :: t)

/-- A point of coordinates, as the tuple returned by Node.coordinates. -/
abbrev Point := ℚ × ℚ × ℚ

/-- Embedding of class Node of src/utils/node.py.  The isinstance type
checks of the constructor are discharged by the Lean types. -/
structure Node where
  node_number : ℕ
  x_coordinate : ℚ
  y_coordinate : ℚ
  z_coordinate : Option ℚ
  values : List (String × PVal)
deriving DecidableEq

/-- Node.coordinates: the source tests the truthiness of z_coordinate, so
both a missing z and a z equal to 0 yield a 0 third component. -/
def Node.coordinates (n : Node) : Point :=
  match n.z_coordinate with
  | some z => if z != 0 then (n.x_coordinate, n.y_coordinate, z)
              else (n.x_coordinate, n.y_coordinate, 0)
  | none => (n.x_coordinate, n.y_coordinate, 0)

/-- Node.get_value: coordinate aliases are answered from the coordinate
attributes; otherwise the values dict is read and a KeyError is caught,
returning the Python value False. -/
def Node.get_value (n : Node) (value_name : String) : PVal :=
  if value_name = "x" ∨ value_name = "x_coordinate" then .rat n.x_coordinate
  else if value_name = "y" ∨ value_name = "y_coordinate" then .rat n.y_coordinate
  else if value_name = "z" ∨ value_name = "z_coordinate" then
    match n.z_coordinate with
    | some z => .rat z
    | none => .pnone
  else
    match dlookup n.values value_name with
    | some v => v
    | none => .pfalse

/-- Node.set_value: both branches of the source store the value. -/
def Node.set_value (n : Node) (value_name : String) (value : PVal) : Node :=
  Node.mk n.node_number n.x_coordinate n.y_coordinate n.z_coordinate
    (dictSet n.values value_name value)

/-- Embedding of class Grid of src/utils/grid.py: a dict from node_number
to Node. -/
structure Grid where
  nodes : List (ℕ × Node)
deriving DecidableEq

/-- Grid.get_coordinates_array: coordinates in dict iteration order. -/
def Grid.get_coordinates_array (g : Grid) : List Point :=
  g.nodes.map (fun p => p.2.coordinates)

/-- The list of node numbers, as list(grid.nodes.keys()). -/
def Grid.nodeKeys (g : Grid) : List ℕ :=
  g.nodes.map Prod.fst

/-- One node of Grid.check_value_set_completeness: if the stored value for
set_name is missing (KeyError, caught) or falsy, nan is stored. -/
def completeNode (set_name : String) (node : Node) : Node :=
  match dlookup node.values set_name with
  | some v => if v.truthy then node else node.set_value set_name .nan
  | none => node.set_value set_name .nan

/-- Grid.check_value_set_completeness. -/
def Grid.check_value_set_completeness (g : Grid) (set_name : String) : Grid :=
  Grid.mk (g.nodes.map (fun p => (p.1, completeNode set_name p.2)))

/-- In place update self.nodes[n].set_value(value_name, v). -/
def updateNodeValue (g : Grid) (n : ℕ) (value_name : String) (v : PVal) : Grid :=
  Grid.mk (g.nodes.map (fun p =>
    if p.1 = n then (p.1, p.2.set_value value_name v) else p))

/-- Grid.set_node_values: first every key of the dict is checked against
the grid (ValueError if one is missing, before any write), then the values
are written through, then the completeness check runs. -/
def Grid.set_node_values (g : Grid) (value_name : String)
    (node_dict : List (ℕ × PVal)) : Except String Grid :=
  if node_dict.any (fun p => (dlookup g.nodes p.1).isNone) then
    .error "ValueError"
  else
    .ok ((node_dict.foldl (fun acc p => updateNodeValue acc p.1 value_name p.2) g
          ).check_value_set_completeness value_name)

/-- Loop body of Grid.get_node_values: values passing the isinstance test
are collected into a dict keyed by node.node_number. -/
def gnvGo (value_name : String) : List (ℕ × Node) → List (ℕ × PVal) →
    List (ℕ × PVal)
  | [], acc => acc
  | (_, node) :: rest, acc =>
    let value := node.get_value value_name
    if value.isNumeric then gnvGo value_name rest (dictSet acc node.node_number value)
    else gnvGo value_name rest acc

/-- Grid.get_node_values.  The source returns the Python value False when
the resulting dict is empty; callers test truthiness, which is modelled
as an isEmpty test on this list at the call sites. -/
def Grid.get_node_values (g : Grid) (value_name : String) : List (ℕ × PVal) :=
  gnvGo value_name g.nodes []

/-- Grid.add_node: when the node_number already exists the source only
logs an error and returns None, leaving the grid unchanged; no exception
is raised.  The isinstance check on node_number is discharged by the
type. -/
def Grid.add_node (g : Grid) (node_number : ℕ) (x_coordinate y_coordinate : ℚ)
    (z_coordinate : Option ℚ) (values : Option (List (String × PVal))) : Grid :=
  if (dlookup g.nodes node_number).isSome then g
  else Grid.mk (g.nodes ++
    [(node_number,
      Node.mk node_number x_coordinate y_coordinate z_coordinate (values.getD []))])

/-- One input record of Grid.initiate_grid. -/
structure GridRow where
  x_coordinate : Option ℚ
  y_coordinate : Option ℚ
  z_coordinate : Option ℚ
  value : Option PVal
  values : Option (List (String × PVal))
  node_number : Option ℕ
deriving DecidableEq

/-- Values dict passed to add_node by Grid.initiate_grid: a scalar under
the value key is stored under value_name (or the name data); a values
dict in the record overrides it. -/
def initRowValues (value_name : Option String) (row : GridRow) :
    Option (List (String × PVal)) :=
  match row.values with
  | some d => some d
  | none => row.value.map (fun v => [(value_name.getD "data", v)])

/-- Loop of Grid.initiate_grid: on a record lacking x_coordinate or
y_coordinate the source logs an error and returns False at once, keeping
the nodes added so far; the loop index supplies a default node_number. -/
def initGo (value_name : Option String) : Grid → List GridRow → ℕ → Bool × Grid
  | g, [], _ => (true, g)
  | g, row :: rest, i =>
    match row.x_coordinate with
    | none => (false, g)
    | some x =>
      match row.y_coordinate with
      | none => (false, g)
      | some y =>
        initGo value_name
          (g.add_node (row.node_number.getD i) x y row.z_coordinate
            (initRowValues value_name row))
          rest (i + 1)

/-- Grid.initiate_grid: clears the existing nodes first when clear_first
is set and the grid is not empty, then runs the record loop. -/
def Grid.initiate_grid (g : Grid) (data_set : List GridRow)
    (value_name : Option String) (clear_first : Bool) : Bool × Grid :=
  let g0 := if clear_first && !g.nodes.isEmpty then Grid.mk [] else g
  initGo value_name g0 data_set 0

/-- A cached neighbor entry of the transformation dict: the dict with the
keys node_number and distance appended by find_nearest_neighbors. -/
structure Neighbor where
  node_number : ℕ
  distance : ℚ
deriving DecidableEq

/-- The per grid entry of GridTransformer.grids: the stored Grid and the
transform dict from a source grid name to a transformation dict, which
maps each target node_number to its neighbor list or to None. -/
structure GridEntry where
  grid : Grid
  transform : List (String × List (ℕ × Option (List Neighbor)))
deriving DecidableEq

/-- Embedding of class GridTransformer of src/utils/grid_transformer.py. -/
structure GridTransformer where
  grids : List (String × GridEntry)
deriving DecidableEq

/-- GridTransformer.add_grid. -/
def GridTransformer.add_grid (t : GridTransformer) (grid : Grid)
    (grid_name : String) : Except String GridTransformer :=
  if (dlookup t.grids grid_name).isSome then
    .error "KeyError: grid already exists"
  else
    .ok (GridTransformer.mk (dictSet t.grids grid_name (GridEntry.mk grid [])))

/-- GridTransformer.update_grid.  After the registration check the source
executes del self.grids with the literal string key grid_name (quotes
around the variable name), not with the value of the parameter; this is
kept faithfully. -/
def GridTransformer.update_grid (t : GridTransformer) (grid : Grid)
    (grid_name : String) : Except String GridTransformer :=
  if (dlookup t.grids grid_name).isNone then
    .error "KeyError: grid does not exist"
  else
    match dlookup t.grids "grid_name" with
    | none => .error "KeyError: grid_name"
    | some _ =>
      .ok (GridTransformer.mk
        (dictSet (dictDel t.grids "grid_name") grid_name (GridEntry.mk grid [])))

/-- Distance and source array index pairs for one target point, in source
array order. -/
def candList (d : Point → Point → ℚ) (t : Point) : List Point → ℕ →
    List (ℚ × ℕ)
  | [], _ => []
  | p :: rest, i => (d t p, i) :: candList d t rest (i + 1)

/-- Ordering of query candidates: by distance, ties by array index. -/
def candLE (a b : ℚ × ℕ) : Bool :=
  a.1 < b.1 || (a.1 == b.1 && a.2 ≤ b.2)

/-- Insertion into a sorted candidate list. -/
def insertCand (a : ℚ × ℕ) : List (ℚ × ℕ) → List (ℚ × ℕ)
  | [] => [a]
  | b :: t => if candLE a b then a :: b :: t else b :: insertCand a t

/-- Insertion sort of query candidates. -/
def sortCands : List (ℚ × ℕ) → List (ℚ × ℕ)
  | [] => []
  | a :: t => insertCand a (sortCands t)

/-- Result shape of scipy KDTree.query: for k equal to 1 the returned
distance and index arrays hold one scalar per target point, for larger k
one list per target point. -/
inductive QueryRes where
  | scalar (pairs : List (ℚ × ℕ))
  | rows (rws : List (List (ℚ × ℕ)))
deriving DecidableEq

/-- The k nearest source points for one target point, sorted by distance,
as pairs of distance and source array index. -/
def queryRow (d : Point → Point → ℚ) (src : List Point) (t : Point)
    (k : ℕ) : List (ℚ × ℕ) :=
  (sortCands (candList d t src 0)).take k

/-- Model of tree.query over the source coordinate array for every target
coordinate (see the header note on the eps parameter and on exactness). -/
def kdtreeQuery (d : Point → Point → ℚ) (src targets : List Point)
    (k : ℕ) : QueryRes :=
  if k = 1 then
    .scalar (targets.map (fun t => (queryRow d src t 1).headD (0, src.length)))
  else
    .rows (targets.map (fun t => queryRow d src t k))

/-- The indexing grid_1_nodes[idx - 1] of the source for a query index
idx: Python evaluates idx - 1, and for idx equal to 0 the index -1 wraps
to the last element of the list. -/
def pyIdxMinusOne (l : List ℕ) (idx : ℕ) : Option ℕ :=
  if idx = 0 then listLast l else listNth l (idx - 1)

/-- Inner loop of find_nearest_neighbors over one query row: each index is
mapped through grid_1_nodes[idx - 1]; when distance_max is given (not
inf), candidates farther than distance_max are skipped.  A failing index
lookup is an IndexError, modelled as none. -/
def buildRow (g1nodes : List ℕ) (dmax : Option ℚ) :
    List (ℚ × ℕ) → Option (List Neighbor)
  | [] => some []
  | (dist, idx) :: rest =>
    match pyIdxMinusOne g1nodes idx with
    | none => none
    | some nn =>
      match buildRow g1nodes dmax rest with
      | none => none
      | some tail =>
        match dmax with
        | none => some (Neighbor.mk nn dist :: tail)
        | some m => if dist > m then some tail else some (Neighbor.mk nn dist :: tail)

/-- Outer loop of find_nearest_neighbors: one transformation dict entry per
target node; a target node whose surviving candidate list is empty is
recorded with the None marker (the lonely node case). -/
def buildTD (g1nodes : List ℕ) (dmax : Option ℚ) :
    List (ℕ × List (ℚ × ℕ)) → Option (List (ℕ × Option (List Neighbor)))
  | [] => some []
  | (n2, row) :: rest =>
    match buildRow g1nodes dmax row with
    | none => none
    | some nbs =>
      match buildTD g1nodes dmax rest with
      | none => none
      | some t => some ((n2, if nbs.isEmpty then none else some nbs) :: t)

/-- GridTransformer.find_nearest_neighbors.  distance_max is an optional
rational, none standing for the default numpy.inf.  With k equal to 1 the
query result per target is a scalar, and len of a numpy scalar raises
TypeError (the FIXME of the source); the transformer state is unchanged in
that case because the result dict is only stored after the loop. -/
def GridTransformer.find_nearest_neighbors (t : GridTransformer)
    (d : Point → Point → ℚ) (grid_name_1 grid_name_2 : String)
    (neighbors_quantity : ℕ) (distance_max : Option ℚ) :
    Except String GridTransformer :=
  match dlookup t.grids grid_name_1 with
  | none => .error "KeyError: grid_name_1 not found"
  | some e1 =>
  match dlookup t.grids grid_name_2 with
  | none => .error "KeyError: grid_name_2 not found"
  | some e2 =>
    let g1nodes := e1.grid.nodeKeys
    let g2nodes := e2.grid.nodeKeys
    match kdtreeQuery d e1.grid.get_coordinates_array
        e2.grid.get_coordinates_array neighbors_quantity with
    | .scalar _ => .error "TypeError: len of numpy scalar"
    | .rows rws =>
      match buildTD g1nodes distance_max (g2nodes.zip rws) with
      | none => .error "IndexError"
      | some td =>
        .ok (GridTransformer.mk (dictSet t.grids grid_name_2
          (GridEntry.mk e2.grid (dictSet e2.transform grid_name_1 td))))

/-- Weighted average loop of GridTransformer.transition for one target
node: the accumulators sum_distance and factor, with a nan flag latched
once a nan source value enters factor.  A source value missing from the
src_values dict is a KeyError; the Python value False contributes
False * 1 / distance, which is 0; None in arithmetic would be a
TypeError (unreachable, since get_node_values filters None out). -/
def transNodeGo (src_values : List (ℕ × PVal)) :
    List Neighbor → ℚ → Bool → ℚ → Except String PVal
  | [], sumd, isnan, factor =>
    .ok (if isnan then .nan else .rat (factor / sumd))
  | nb :: rest, sumd, isnan, factor =>
    let sumd1 := sumd + 1 / nb.distance
    match dlookup src_values nb.node_number with
    | none => .error "KeyError: source value"
    | some v =>
      match v with
      | .nan => transNodeGo src_values rest sumd1 true factor
      | .rat q => transNodeGo src_values rest sumd1 isnan (factor + q / nb.distance)
      | .pfalse => transNodeGo src_values rest sumd1 isnan (factor + 0)
      | .pnone => .error "TypeError: None in arithmetic"

/-- The weighted average written by transition for one target node. -/
def transitionNodeResult (src_values : List (ℕ × PVal)) (l : List Neighbor) :
    Except String PVal :=
  transNodeGo src_values l 0 false 0

/-- Write loop of GridTransformer.transition over the transformation dict:
entries whose neighbor list is falsy (None, or an empty list) are skipped;
otherwise the weighted average is computed and stored on the target node
(KeyError if the node is missing from the target grid). -/
def writeLoop (src_values : List (ℕ × PVal)) (value_name : String) :
    Grid → List (ℕ × Option (List Neighbor)) → Except String Grid
  | g, [] => .ok g
  | g, (node, nd) :: rest =>
    match nd with
    | none => writeLoop src_values value_name g rest
    | some l =>
      if l.isEmpty then writeLoop src_values value_name g rest
      else
        match transitionNodeResult src_values l with
        | .error e => .error e
        | .ok result =>
          match dlookup g.nodes node with
          | none => .error "KeyError: target node"
          | some _ =>
            writeLoop src_values value_name
              (updateNodeValue g node value_name result) rest

/-- GridTransformer.transition.  The truthiness test on the result of
get_node_values is an emptiness test on the modelled dict; afterwards the
write loop runs and the target grid completeness check is applied. -/
def GridTransformer.transition (t : GridTransformer)
    (src_grid_name value_name target_grid_name : String) :
    Except String GridTransformer :=
  match dlookup t.grids src_grid_name with
  | none => .error "KeyError: src grid not found"
  | some src_entry =>
  match dlookup t.grids target_grid_name with
  | none => .error "KeyError: target grid not found"
  | some target_entry =>
    if (src_entry.grid.get_node_values value_name).isEmpty then
      .error "KeyError: value_name not found"
    else
      match dlookup target_entry.transform src_grid_name with
      | none => .error "KeyError: no transformation matrix"
      | some transform_dict =>
        match writeLoop (src_entry.grid.get_node_values value_name) value_name
            target_entry.grid transform_dict with
        | .error e => .error e
        | .ok g1 =>
          .ok (GridTransformer.mk (dictSet t.grids target_grid_name
            (GridEntry.mk (g1.check_value_set_completeness value_name)
              target_entry.transform)))

/-- Success test on an Except value. -/
def isOk {α : Type} : Except String α → Bool
  | .ok _ => true
  | .error _ => false

/-- Projection: the stored value of field f on node n of grid gname after
a transformer operation, none when the operation failed or the grid or
node or field is missing. -/
def finalNodeValue (r : Except String GridTransformer) (gname : String)
    (n : ℕ) (f : String) : Option PVal :=
  match r with
  | .error _ => none
  | .ok t =>
    match dlookup t.grids gname with
    | none => none
    | some e =>
      match dlookup e.grid.nodes n with
      | none => none
      | some node => dlookup node.values f

/-- Projection: the cached transformation dict entry of target node n for
the pair (target, source), none when the operation failed or nothing is
cached. -/
def transformEntry (r : Except String GridTransformer)
    (target source : String) (n : ℕ) : Option (Option (List Neighbor)) :=
  match r with
  | .error _ => none
  | .ok t =>
    match dlookup t.grids target with
    | none => none
    | some e =>
      match dlookup e.transform source with
      | none => none
      | some td => dlookup td n

/-- Projection: the stored value of field f on node n after a Grid
operation. -/
def gridValue (r : Except String Grid) (n : ℕ) (f : String) : Option PVal :=
  match r with
  | .error _ => none
  | .ok g =>
    match dlookup g.nodes n with
    | none => none
    | some node => dlookup node.values f

/-- Squared Euclidean distance between two coordinate tuples, the square
of the metric used by the KDTree of the source. -/
def euclSqDist (p q : Point) : ℚ :=
  (p.1 - q.1) ^ 2 + (p.2.1 - q.2.1) ^ 2 + (p.2.2 - q.2.2) ^ 2

/-- Distance function used to instantiate the abstract query metric on
concrete grids whose points are collinear on the x axis: there it agrees
with the Euclidean distance, which the accompanying theorems certify by
squaring. -/
def dAbsX (p q : Point) : ℚ := |p.1 - q.1|

/-- Certificate that dAbsX is the Euclidean distance on a point set: its
square is the squared Euclidean distance and it is nonnegative. -/
def euclAgreesOn (pts : List Point) : Bool :=
  pts.all (fun p => pts.all (fun q =>
    decide (dAbsX p q ^ 2 = euclSqDist p q) && decide (0 ≤ dAbsX p q)))

/-- Is the field name one of the coordinate aliases answered by
Node.get_value from the coordinate attributes instead of the values
dict. -/
def coordAlias (f : String) : Bool :=
  decide (f = "x" ∨ f = "x_coordinate" ∨ f = "y" ∨ f = "y_coordinate" ∨
    f = "z" ∨ f = "z_coordinate")

/-- Grid well formedness as maintained by every construction path of the
source: each node is stored under its own node_number. -/
def WFgridB (g : Grid) : Bool :=
  g.nodes.all (fun p => p.2.node_number == p.1)

/-- Transformer well formedness: every registered grid is well formed. -/
def WFtransB (t : GridTransformer) : Bool :=
  t.grids.all (fun p => WFgridB p.2.grid)

/-- Completeness of field f on a grid: get_node_values answers for every
node of the grid with a rational or nan. -/
def valueCompleteB (g : Grid) (f : String) : Bool :=
  g.nodes.all (fun p =>
    match dlookup (g.get_node_values f) p.1 with
    | some v => v.isNanOrRat
    | none => false)

/-
Concrete scenario data for the claims.
-/

/-- C1 and C3 source grid: node 1 at the origin, node 2 at x = 10. -/
def c1srcGrid : Grid :=
  Grid.mk [(1, Node.mk 1 0 0 none []), (2, Node.mk 2 10 0 none [])]

/-- C1 and C3 target grid: one node at x = 4, nearer to source node 1. -/
def c1tgtGrid : Grid :=
  Grid.mk [(1, Node.mk 1 4 0 none [])]

/-- C1 pipeline: register both grids and search 2 nearest neighbors. -/
def c1res : Except String GridTransformer :=
  (GridTransformer.mk []).add_grid c1srcGrid "a" >>=
    (fun t => t.add_grid c1tgtGrid "b") >>=
    (fun t => t.find_nearest_neighbors dAbsX "a" "b" 2 none)

/-- Points of the C1 scenario. -/
def c1points : List Point := [(0, 0, 0), (10, 0, 0), (4, 0, 0)]

/-- C2 source grid A of the spec example: node 1 at (0,0) with p 10 and
node 2 at (10,0) with p 20. -/
def c2srcGrid : Grid :=
  Grid.mk [(1, Node.mk 1 0 0 none [("p", PVal.rat 10)]),
           (2, Node.mk 2 10 0 none [("p", PVal.rat 20)])]

/-- C2 target grid B of the spec example: node 1 at (5,0). -/
def c2tgtGrid : Grid :=
  Grid.mk [(1, Node.mk 1 5 0 none [])]

/-- C2 pipeline: find_nearest_neighbors with k 2, then transition of p. -/
def c2res : Except String GridTransformer :=
  (GridTransformer.mk []).add_grid c2srcGrid "a" >>=
    (fun t => t.add_grid c2tgtGrid "b") >>=
    (fun t => t.find_nearest_neighbors dAbsX "a" "b" 2 none) >>=
    (fun t => t.transition "a" "p" "b")

/-- Points of the C2 scenario. -/
def c2points : List Point := [(0, 0, 0), (10, 0, 0), (5, 0, 0)]

/-- Concrete neighbor list for the C2 witness: the list cached by the C2
pipeline for target node 1. -/
def c2wl : List Neighbor := [Neighbor.mk 2 5, Neighbor.mk 1 5]

/-- Concrete source values for the C2 witness. -/
def c2wsv : List (ℕ × PVal) := [(1, PVal.rat 10), (2, PVal.rat 20)]

/-- Value function of the C2 witness: node n carries 10 n. -/
def c2wv : ℕ → ℚ := fun n => 10 * n

/-- Numerator of the weighting formula at the C2 witness input. -/
def c2wNum : ℚ := (c2wl.map (fun nb => c2wv nb.node_number / nb.distance)).sum

/-- Denominator of the weighting formula at the C2 witness input. -/
def c2wDen : ℚ := (c2wl.map (fun nb => 1 / nb.distance)).sum

/-- C3 pipeline: the same grids as C1 queried with neighbors_quantity 1. -/
def c3res : Except String GridTransformer :=
  (GridTransformer.mk []).add_grid c1srcGrid "a" >>=
    (fun t => t.add_grid c1tgtGrid "b") >>=
    (fun t => t.find_nearest_neighbors dAbsX "a" "b" 1 none)

/-- C4 transformer: one grid registered under the name a. -/
def c4t : GridTransformer :=
  GridTransformer.mk [("a", GridEntry.mk c1srcGrid [])]

/-- C5 grid: a single node with no values. -/
def c5g : Grid := Grid.mk [(1, Node.mk 1 0 0 none [])]

/-- C6 witness grid. -/
def c6g : Grid := Grid.mk [(1, Node.mk 1 0 0 none [])]

/-- C6 witness input dict: node 1 gets the value 2 for p. -/
def c6dict : List (ℕ × PVal) := [(1, PVal.rat 2)]

/-- C6 witness result grid of set_node_values. -/
def c6g1 : Grid := Grid.mk [(1, Node.mk 1 0 0 none [("p", PVal.rat 2)])]

/-- C6 witness source grid for the transition part. -/
def c6gA : Grid := Grid.mk [(1, Node.mk 1 0 0 none [("p", PVal.rat 10)])]

/-- C6 witness target grid for the transition part. -/
def c6gB : Grid := Grid.mk [(1, Node.mk 1 5 0 none [])]

/-- C6 witness transformer with a cached neighbor map from a to b. -/
def c6t : GridTransformer :=
  GridTransformer.mk
    [("a", GridEntry.mk c6gA []),
     ("b", GridEntry.mk c6gB [("a", [(1, some [Neighbor.mk 1 5])])])]

/-- C6 witness target entry after the transition. -/
def c6e : GridEntry :=
  GridEntry.mk (Grid.mk [(1, Node.mk 1 5 0 none [("p", PVal.rat 10)])])
    [("a", [(1, some [Neighbor.mk 1 5])])]

/-- C6 witness transformer state after the transition. -/
def c6t1 : GridTransformer :=
  GridTransformer.mk [("a", GridEntry.mk c6gA []), ("b", c6e)]

/-- C7 source grid: two nodes, neither carrying any value. -/
def c7gA : Grid :=
  Grid.mk [(1, Node.mk 1 0 0 none []), (2, Node.mk 2 10 0 none [])]

/-- C7 target grid. -/
def c7gB : Grid := Grid.mk [(1, Node.mk 1 5 0 none [])]

/-- C7 transformer: both grids registered and a neighbor map cached. -/
def c7t : GridTransformer :=
  GridTransformer.mk
    [("a", GridEntry.mk c7gA []),
     ("b", GridEntry.mk c7gB [("a", [(1, some [Neighbor.mk 1 5])])])]

/-- The field p is absent from every node of the C7 source grid. -/
def c7fieldAbsent : Bool :=
  c7gA.nodes.all (fun p => (dlookup p.2.values "p").isNone)

/-- C8 source grid: values 10 and -10 at x = 0 and x = 2. -/
def c8gA : Grid :=
  Grid.mk [(1, Node.mk 1 0 0 none [("p", PVal.rat 10)]),
           (2, Node.mk 2 2 0 none [("p", PVal.rat (-10))])]

/-- C8 target grid: node 1 at x = 1 (equidistant to both sources), node 2
at x = 10 (farther than distance_max 3 from every source). -/
def c8gB : Grid :=
  Grid.mk [(1, Node.mk 1 1 0 none []), (2, Node.mk 2 10 0 none [])]

/-- C8 pipeline: neighbor search with k 2 and distance_max 3, then
transition of p. -/
def c8res : Except String GridTransformer :=
  (GridTransformer.mk []).add_grid c8gA "a" >>=
    (fun t => t.add_grid c8gB "b") >>=
    (fun t => t.find_nearest_neighbors dAbsX "a" "b" 2 (some 3)) >>=
    (fun t => t.transition "a" "p" "b")

/-- Points of the C8 scenario. -/
def c8points : List Point := [(0, 0, 0), (2, 0, 0), (1, 0, 0), (10, 0, 0)]

/-- C9 grid: node 1 exists with coordinates (0,0) and value p 7. -/
def c9g : Grid := Grid.mk [(1, Node.mk 1 0 0 none [("p", PVal.rat 7)])]

/-- C10 grid with a preexisting node, to be cleared by initiate_grid. -/
def c10prior : Grid := Grid.mk [(9, Node.mk 9 9 9 none [])]

/-- C10 well formed first record. -/
def c10r1 : GridRow :=
  GridRow.mk (some 0) (some 0) none (some (PVal.rat 1)) none (some 1)

/-- C10 malformed record: the y_coordinate is missing. -/
def c10bad : GridRow := GridRow.mk (some 3) none none none none none

/-
Theorems for the claims.
-/

/-- C1: the spec says each query index is mapped back to the source node
number at exactly that index of the captured node list (no offset), so
the recorded pairs name the actually nearest source nodes.  The source
however evaluates grid_1_nodes[points[i][k] - 1]: every index is shifted
down by one and index 0 wraps to the last node.  On the concrete grids
(source nodes 1 and 2 at x 0 and 10, target node at x 4, k 2) the query
returns index 0 at distance 4 and index 1 at distance 6, the captured
list has node 1 at index 0, yet the recorded neighbors are node 2 at
distance 4 and node 1 at distance 6, so the nearest recorded node number
is wrong. -/
theorem C1_find_nearest_neighbors_offset_bug :
    transformEntry c1res "b" "a" 1 =
      some (some [Neighbor.mk 2 4, Neighbor.mk 1 6]) ∧
    listNth c1srcGrid.nodeKeys 0 = some 1 ∧
    listNth c1srcGrid.nodeKeys 1 = some 2 ∧
    some (some [Neighbor.mk 2 4, Neighbor.mk 1 6]) ≠
      some (some [Neighbor.mk 1 4, Neighbor.mk 2 6]) ∧
    euclAgreesOn c1points = true :=
  ⟨by with_unfolding_all rfl, by with_unfolding_all rfl, by with_unfolding_all rfl,
   by decide, by with_unfolding_all rfl⟩

/-- Generalized accumulator lemma for the weighted average loop of
transition: when every referenced source value is a rational given by v,
the loop computes (factor plus the sum of value over distance) divided by
(sum_distance plus the sum of the distance inverses). -/
theorem transNodeGo_sum (src_values : List (ℕ × PVal)) (v : ℕ → ℚ) :
    ∀ (l : List Neighbor) (sumd factor : ℚ),
      (∀ nb ∈ l, dlookup src_values nb.node_number =
        some (PVal.rat (v nb.node_number))) →
      transNodeGo src_values l sumd false factor =
        .ok (PVal.rat
          ((factor + (l.map (fun nb => v nb.node_number / nb.distance)).sum) /
           (sumd + (l.map (fun nb => 1 / nb.distance)).sum))) := by
  intro l
  induction l with
  | nil => intro sumd factor _; simp [transNodeGo]
  | cons nb rest ih =>
    intro sumd factor h
    have hnb := h nb (List.mem_cons_self _ _)
    have hrest : ∀ x ∈ rest, dlookup src_values x.node_number =
        some (PVal.rat (v x.node_number)) :=
      fun x hx => h x (List.mem_cons_of_mem _ hx)
    simp only [transNodeGo, hnb]
    rw [ih _ _ hrest]
    simp only [List.map_cons, List.sum_cons]
    congr 2
    ring

/-- C2: transition performs inverse distance weighting.  First part: for
any neighbor list with positive distances whose referenced source values
are the rationals given by v, the per node result of the transition write
loop is the sum of value over distance divided by the sum of the inverse
distances, exactly the formula of the spec (not the arithmetic mean).
Second part: the concrete spec example, run end to end through add_grid,
find_nearest_neighbors with k 2 and transition, leaves 15 on target node
1.  Third part: the distance function used for the concrete run is the
Euclidean one on the scenario points. -/
theorem C2_transition_inverse_distance_weighting :
    (∀ (src_values : List (ℕ × PVal)) (l : List Neighbor) (v : ℕ → ℚ),
        (∀ nb ∈ l, 0 < nb.distance) →
        (∀ nb ∈ l, dlookup src_values nb.node_number =
          some (PVal.rat (v nb.node_number))) →
        transitionNodeResult src_values l =
          .ok (PVal.rat
            ((l.map (fun nb => v nb.node_number / nb.distance)).sum /
             (l.map (fun nb => 1 / nb.distance)).sum))) ∧
    finalNodeValue c2res "b" 1 "p" = some (PVal.rat 15) ∧
    euclAgreesOn c2points = true := by
  refine ⟨?_, by with_unfolding_all rfl, by with_unfolding_all rfl⟩
  intro src_values l v _ h
  have h2 := transNodeGo_sum src_values v l 0 0 h
  simpa [transitionNodeResult] using h2

/-- Witness for C2 at the concrete input cached by the C2 pipeline. -/
theorem C2_transition_inverse_distance_weighting_witness :
    transitionNodeResult c2wsv c2wl = .ok (PVal.rat (c2wNum / c2wDen)) :=
  C2_transition_inverse_distance_weighting.1 c2wsv c2wl c2wv
    (by with_unfolding_all decide) (by with_unfolding_all decide)

/-- C3: the claim says find_nearest_neighbors completes for k 1 and still
stores per node lists of length one.  The source notes in a FIXME that
tree.query returns no list per node when only one neighbor is requested:
the per target entries are numpy scalars, and len applied to a scalar
raises TypeError.  On grids with one target node and k 1 the call
fails. -/
theorem C3_find_nearest_neighbors_k1_type_error :
    c3res = .error "TypeError: len of numpy scalar" ∧
    c1tgtGrid.nodes.isEmpty = false :=
  ⟨by with_unfolding_all rfl, by with_unfolding_all rfl⟩

/-- C4: the claim says update_grid succeeds for every registered name.
The source deletes self.grids with the literal string key grid_name
instead of the parameter value, so updating the registered grid a raises
KeyError although a is registered (no grid named grid_name exists). -/
theorem C4_update_grid_literal_key_bug :
    c4t.update_grid c1tgtGrid "a" = .error "KeyError: grid_name" ∧
    (dlookup c4t.grids "a").isSome = true :=
  ⟨by with_unfolding_all rfl, by with_unfolding_all rfl⟩

/-- C5: the claim says set_node_values writes through exactly the given
value, including the value 0.  The completeness check of the source tests
the Python truthiness of the stored value, and 0 is falsy, so a stored 0
is immediately replaced by nan: writing 0 for p on node 1 leaves nan, not
0. -/
theorem C5_set_node_values_zero_becomes_nan :
    gridValue (c5g.set_node_values "p" [(1, PVal.rat 0)]) 1 "p" =
      some PVal.nan ∧
    some PVal.nan ≠ some (PVal.rat 0) :=
  ⟨by with_unfolding_all rfl, by decide⟩

/-- C7: the claim says transition raises a key error when no source node
carries a numeric value for the field.  In the source,
Node.get_value returns the Python value False for a missing key, and
isinstance(False, int) holds because bool is a subclass of int, so
get_node_values returns a non empty dict of False values and the
truthiness guard does not fire: on a transformer whose registered source
grid carries the field p on no node, with the neighbor map cached,
transition completes without raising (and the target node ends as nan via
the computed 0). -/
theorem C7_transition_absent_field_no_raise :
    c7fieldAbsent = true ∧
    isOk (c7t.transition "a" "p" "b") = true ∧
    (dlookup c7t.grids "a").isSome = true ∧
    (dlookup c7t.grids "b").isSome = true ∧
    finalNodeValue (c7t.transition "a" "p" "b") "b" 1 "p" = some PVal.nan :=
  ⟨by with_unfolding_all rfl, by with_unfolding_all rfl, by with_unfolding_all rfl,
   by with_unfolding_all rfl, by with_unfolding_all rfl⟩

/-- C8: the lonely node part of the claim holds on the code (target node
2, farther than distance_max 3 from every source, is recorded as None,
the call does not raise, and transition leaves it nan), but the claim
also says every target node that has neighbors receives a computed
value.  Target node 1 has the cached neighbors node 2 and node 1 both at
distance 1, its computed weighted average is 0, and the completeness
check treats the stored 0 as falsy and replaces it by nan: after the
transition node 1 holds nan exactly like the lonely node, against the
stated intent that nan is distinguishable from a computed value. -/
theorem C8_lonely_node_zero_result_indistinguishable :
    isOk c8res = true ∧
    transformEntry c8res "b" "a" 1 =
      some (some [Neighbor.mk 2 1, Neighbor.mk 1 1]) ∧
    transformEntry c8res "b" "a" 2 = some none ∧
    finalNodeValue c8res "b" 2 "p" = some PVal.nan ∧
    finalNodeValue c8res "b" 1 "p" = some PVal.nan ∧
    euclAgreesOn c8points = true :=
  ⟨by with_unfolding_all rfl, by with_unfolding_all rfl, by with_unfolding_all rfl,
   by with_unfolding_all rfl, by with_unfolding_all rfl, by with_unfolding_all rfl⟩

/-- C9: the claim says add_node with an existing node_number surfaces a
named exception.  The source only logs an error and returns None: on a
grid already holding node 1, adding node 1 again returns with the grid
unchanged and raises nothing (the embedded add_node is total, returning
the unchanged grid).  The preservation part of the claim does hold: the
stored node keeps its coordinates and values. -/
theorem C9_add_node_duplicate_silent :
    c9g.add_node 1 5 5 none none = c9g ∧
    (dlookup c9g.nodes 1).isSome = true :=
  ⟨by with_unfolding_all rfl, by with_unfolding_all rfl⟩

/-- Looking up the key just set yields the value just set. -/
theorem dlookup_dictSet_self {α β : Type} [DecidableEq α]
    (d : List (α × β)) (k : α) (v : β) : dlookup (dictSet d k v) k = some v := by
  induction d with
  | nil => simp [dictSet, dlookup]
  | cons p t ih =>
    obtain ⟨k1, v1⟩ := p
    by_cases hk : k1 = k
    · simp [dictSet, hk, dlookup]
    · simp [dictSet, hk, dlookup, ih]

/-- Setting one key leaves the lookup of any other key unchanged. -/
theorem dlookup_dictSet_ne {α β : Type} [DecidableEq α]
    (d : List (α × β)) (k k1 : α) (v : β) (h : k1 ≠ k) :
    dlookup (dictSet d k v) k1 = dlookup d k1 := by
  induction d with
  | nil => simp [dictSet, dlookup, Ne.symm h]
  | cons p t ih =>
    obtain ⟨k2, v2⟩ := p
    by_cases hk : k2 = k
    · subst hk
      simp [dictSet, dlookup, Ne.symm h]
    · simp [dictSet, hk, dlookup, ih]

/-- A successful dict lookup locates a member of the association list. -/
theorem dlookup_mem {α β : Type} [DecidableEq α] :
    ∀ {d : List (α × β)} {k : α} {v : β}, dlookup d k = some v → (k, v) ∈ d := by
  intro d
  induction d with
  | nil => intro k v h; simp [dlookup] at h
  | cons p t ih =>
    intro k v h
    obtain ⟨k1, v1⟩ := p
    by_cases hk : k1 = k
    · subst hk
      rw [dlookup, if_pos rfl] at h
      injection h with h2
      subst h2
      exact List.mem_cons_self _ _
    · rw [dlookup, if_neg hk] at h
      exact List.mem_cons_of_mem _ (ih h)

/-- set_value does not change the node number. -/
theorem set_value_node_number (n : Node) (f : String) (v : PVal) :
    (n.set_value f v).node_number = n.node_number := rfl

/-- completeNode does not change the node number. -/
theorem completeNode_number (f : String) (node : Node) :
    (completeNode f node).node_number = node.node_number := by
  unfold completeNode
  cases dlookup node.values f with
  | none => rfl
  | some v =>
    by_cases hv : v.truthy = true
    · simp [hv]
    · simp [hv, Node.set_value]

/-- A rational or nan value passes the isinstance test. -/
theorem isNanOrRat_isNumeric {v : PVal} (h : v.isNanOrRat = true) :
    v.isNumeric = true := by
  cases v <;> simp_all [PVal.isNanOrRat, PVal.isNumeric]

/-- After completeNode, the field is stored and holds a rational or nan. -/
theorem completeNode_stored (f : String) (node : Node) :
    ∃ w, dlookup (completeNode f node).values f = some w ∧
      w.isNanOrRat = true := by
  unfold completeNode
  cases hl : dlookup node.values f with
  | none => exact ⟨PVal.nan, by simp [Node.set_value, dlookup_dictSet_self], rfl⟩
  | some v =>
    cases hv : v.truthy with
    | true =>
      refine ⟨v, ?_, ?_⟩
      · simpa [hv] using hl
      · cases v <;> simp_all [PVal.truthy, PVal.isNanOrRat]
    | false =>
      exact ⟨PVal.nan, by simp [hv, Node.set_value, dlookup_dictSet_self], rfl⟩

/-- For a field that is not a coordinate alias, get_value reads the values
dict and falls back to the Python value False. -/
theorem get_value_nonalias (n : Node) (f : String) (hf : coordAlias f = false) :
    n.get_value f = (dlookup n.values f).getD PVal.pfalse := by
  have h : ¬(f = "x" ∨ f = "x_coordinate" ∨ f = "y" ∨ f = "y_coordinate" ∨
      f = "z" ∨ f = "z_coordinate") := of_decide_eq_false hf
  unfold Node.get_value
  rw [if_neg (by tauto), if_neg (by tauto), if_neg (by tauto)]
  cases dlookup n.values f <;> rfl

/-- Accumulator lemma for the get_node_values loop: when every remaining
node carries a rational or nan for the field and is keyed by its own node
number, every key of the remaining nodes (and every rational or nan entry
of the accumulator) ends up in the result with a rational or nan. -/
theorem gnv_complete (f : String) :
    ∀ (nodesL : List (ℕ × Node)) (acc : List (ℕ × PVal)) (n : ℕ),
      (∀ p ∈ nodesL, p.2.node_number = p.1 ∧
        (p.2.get_value f).isNanOrRat = true) →
      (n ∈ nodesL.map Prod.fst ∨
        ∃ v, dlookup acc n = some v ∧ v.isNanOrRat = true) →
      ∃ v, dlookup (gnvGo f nodesL acc) n = some v ∧ v.isNanOrRat = true := by
  intro nodesL
  induction nodesL with
  | nil =>
    intro acc n _ hd
    cases hd with
    | inl h => simp at h
    | inr h => simpa [gnvGo] using h
  | cons p rest ih =>
    intro acc n hall hd
    obtain ⟨k, node⟩ := p
    have hp := hall (k, node) (List.mem_cons_self _ _)
    have hrest : ∀ q ∈ rest, q.2.node_number = q.1 ∧
        (q.2.get_value f).isNanOrRat = true :=
      fun q hq => hall q (List.mem_cons_of_mem _ hq)
    have hnum : (node.get_value f).isNumeric = true := isNanOrRat_isNumeric hp.2
    have hstep : gnvGo f ((k, node) :: rest) acc =
        gnvGo f rest (dictSet acc node.node_number (node.get_value f)) := by
      simp [gnvGo, hnum]
    rw [hstep]
    apply ih _ n hrest
    rcases hd with hmem | ⟨v, hv, hnr⟩
    · rw [List.map_cons] at hmem
      rcases List.mem_cons.mp hmem with heq | hmem2
      · right
        refine ⟨node.get_value f, ?_, hp.2⟩
        rw [heq, hp.1]
        exact dlookup_dictSet_self _ _ _
      · left; exact hmem2
    · right
      by_cases hnk : n = node.node_number
      · refine ⟨node.get_value f, ?_, hp.2⟩
        rw [hnk]
        exact dlookup_dictSet_self _ _ _
      · exact ⟨v, by rw [dlookup_dictSet_ne _ _ _ _ hnk]; exact hv, hnr⟩

/-- After the completeness check, get_node_values answers for every node
of the grid with a rational or nan. -/
theorem check_complete (g : Grid) (f : String) (hf : coordAlias f = false)
    (hwf : ∀ p ∈ g.nodes, p.2.node_number = p.1) :
    valueCompleteB (g.check_value_set_completeness f) f = true := by
  rw [valueCompleteB, List.all_eq_true]
  intro p hp
  have hall : ∀ q ∈ (g.check_value_set_completeness f).nodes,
      q.2.node_number = q.1 ∧ (q.2.get_value f).isNanOrRat = true := by
    intro q hq
    simp only [Grid.check_value_set_completeness] at hq
    obtain ⟨r, hr, rfl⟩ := List.mem_map.mp hq
    refine ⟨?_, ?_⟩
    · show (completeNode f r.2).node_number = r.1
      rw [completeNode_number]
      exact hwf r hr
    · show ((completeNode f r.2).get_value f).isNanOrRat = true
      rw [get_value_nonalias _ _ hf]
      obtain ⟨w, hw, hnr⟩ := completeNode_stored f r.2
      simp [hw, hnr]
  have hmem : p.1 ∈ (g.check_value_set_completeness f).nodes.map Prod.fst :=
    List.mem_map.mpr ⟨p, hp, rfl⟩
  obtain ⟨v, hv, hnr⟩ :=
    gnv_complete f (g.check_value_set_completeness f).nodes [] p.1 hall
      (Or.inl hmem)
  simp only [Grid.get_node_values]
  rw [hv]
  exact hnr

/-- The in place node update keeps every node keyed by its number. -/
theorem updateNodeValue_wf (g : Grid) (n : ℕ) (f : String) (v : PVal)
    (hwf : ∀ p ∈ g.nodes, p.2.node_number = p.1) :
    ∀ p ∈ (updateNodeValue g n f v).nodes, p.2.node_number = p.1 := by
  intro p hp
  simp only [updateNodeValue] at hp
  obtain ⟨q, hq, rfl⟩ := List.mem_map.mp hp
  by_cases h : q.1 = n <;> simp [h, Node.set_value, hwf q hq]

/-- The write through loop of set_node_values keeps every node keyed by
its number. -/
theorem foldl_update_wf (f : String) :
    ∀ (dict : List (ℕ × PVal)) (g : Grid),
      (∀ p ∈ g.nodes, p.2.node_number = p.1) →
      ∀ p ∈ (dict.foldl (fun acc q => updateNodeValue acc q.1 f q.2) g).nodes,
        p.2.node_number = p.1 := by
  intro dict
  induction dict with
  | nil => intro g hwf; simpa using hwf
  | cons q rest ih =>
    intro g hwf
    rw [List.foldl_cons]
    exact ih _ (updateNodeValue_wf _ _ _ _ hwf)

/-- The write loop of transition keeps every node keyed by its number. -/
theorem writeLoop_wf (sv : List (ℕ × PVal)) (f : String) :
    ∀ (td : List (ℕ × Option (List Neighbor))) (g g1 : Grid),
      writeLoop sv f g td = .ok g1 →
      (∀ p ∈ g.nodes, p.2.node_number = p.1) →
      ∀ p ∈ g1.nodes, p.2.node_number = p.1 := by
  intro td
  induction td with
  | nil =>
    intro g g1 h hwf
    simp only [writeLoop] at h
    injection h with h2
    rw [← h2]
    exact hwf
  | cons e rest ih =>
    intro g g1 h hwf
    obtain ⟨node, nd⟩ := e
    cases nd with
    | none =>
      simp only [writeLoop] at h
      exact ih _ _ h hwf
    | some l =>
      simp only [writeLoop] at h
      by_cases hl : l.isEmpty = true
      · rw [if_pos hl] at h
        exact ih _ _ h hwf
      · rw [if_neg hl] at h
        cases htr : transitionNodeResult sv l with
        | error e2 => rw [htr] at h; simp at h
        | ok result =>
          rw [htr] at h
          cases hnode : dlookup g.nodes node with
          | none => rw [hnode] at h; simp at h
          | some nd2 =>
            rw [hnode] at h
            exact ih _ _ h (updateNodeValue_wf _ _ _ _ hwf)

/-- C6: completeness invariant.  For a field f that is not a coordinate
alias: after a successful set_node_values on a well formed grid, and
after a successful transition into a registered target grid of a well
formed transformer, get_node_values of f answers for every node of the
resulting grid with a rational or nan, never with a missing entry. -/
theorem C6_completeness_invariant (f : String) (hf : coordAlias f = false) :
    (∀ (g : Grid) (dict : List (ℕ × PVal)) (g1 : Grid),
        WFgridB g = true → Grid.set_node_values g f dict = .ok g1 →
        valueCompleteB g1 f = true) ∧
    (∀ (t : GridTransformer) (sn tn : String) (t1 : GridTransformer),
        WFtransB t = true → GridTransformer.transition t sn f tn = .ok t1 →
        ∀ e, dlookup t1.grids tn = some e → valueCompleteB e.grid f = true) := by
  have hwfB : ∀ g : Grid, WFgridB g = true →
      ∀ p ∈ g.nodes, p.2.node_number = p.1 := by
    intro g hg p hp
    rw [WFgridB, List.all_eq_true] at hg
    have h2 := hg p hp
    simpa using h2
  constructor
  · intro g dict g1 hwf hok
    rw [Grid.set_node_values] at hok
    by_cases hc : dict.any (fun p => (dlookup g.nodes p.1).isNone) = true
    · rw [if_pos hc] at hok
      simp at hok
    · rw [if_neg hc] at hok
      injection hok with h2
      rw [← h2]
      exact check_complete _ f hf (foldl_update_wf f dict g (hwfB g hwf))
  · intro t sn tn t1 hwt hok e he
    unfold GridTransformer.transition at hok
    cases h1 : dlookup t.grids sn with
    | none => simp [h1] at hok
    | some src_entry =>
      simp only [h1] at hok
      cases h2 : dlookup t.grids tn with
      | none => simp [h2] at hok
      | some te =>
        simp only [h2] at hok
        by_cases h3 : (src_entry.grid.get_node_values f).isEmpty = true
        · rw [if_pos h3] at hok; simp at hok
        · rw [if_neg h3] at hok
          cases h4 : dlookup te.transform sn with
          | none => simp [h4] at hok
          | some td =>
            simp only [h4] at hok
            cases h5 : writeLoop (src_entry.grid.get_node_values f) f
                te.grid td with
            | error e2 => simp [h5] at hok
            | ok g1 =>
              simp only [h5] at hok
              injection hok with h6
              rw [← h6] at he
              simp only [] at he
              rw [dlookup_dictSet_self] at he
              injection he with h7
              rw [← h7]
              apply check_complete _ f hf
              have hwfte : ∀ p ∈ te.grid.nodes, p.2.node_number = p.1 := by
                have hmem := dlookup_mem h2
                rw [WFtransB, List.all_eq_true] at hwt
                exact hwfB te.grid (hwt (tn, te) hmem)
              exact writeLoop_wf _ f td te.grid g1 h5 hwfte

/-- Witness for C6 at concrete inputs: a set_node_values call writing 2
for p, and a transition of p through a cached one neighbor map. -/
theorem C6_completeness_invariant_witness :
    valueCompleteB c6g1 "p" = true ∧ valueCompleteB c6e.grid "p" = true :=
  ⟨(C6_completeness_invariant "p" (by with_unfolding_all rfl)).1 c6g c6dict c6g1
      (by with_unfolding_all rfl) (by with_unfolding_all rfl),
   (C6_completeness_invariant "p" (by with_unfolding_all rfl)).2 c6t "a" "b" c6t1
      (by with_unfolding_all rfl) (by with_unfolding_all rfl) c6e
      (by with_unfolding_all rfl)⟩

/-- Prefix lemma for initiate_grid: with well formed records rs1 followed
by a malformed record m, the loop returns False and the grid built from
rs1 alone, with no rollback. -/
theorem initGo_prefix (vn : Option String) (m : GridRow) (rs2 : List GridRow)
    (hm : (m.x_coordinate.isNone || m.y_coordinate.isNone) = true) :
    ∀ (rs1 : List GridRow) (g : Grid) (i : ℕ),
      rs1.all (fun r => r.x_coordinate.isSome && r.y_coordinate.isSome) = true →
      initGo vn g (rs1 ++ m :: rs2) i = (false, (initGo vn g rs1 i).2) ∧
      (initGo vn g rs1 i).1 = true := by
  intro rs1
  induction rs1 with
  | nil =>
    intro g i _
    refine ⟨?_, rfl⟩
    cases hx : m.x_coordinate with
    | none => simp [initGo, hx]
    | some x =>
      cases hy : m.y_coordinate with
      | none => simp [initGo, hx, hy]
      | some y => simp [hx, hy] at hm
  | cons r rest ih =>
    intro g i hall
    rw [List.all_cons, Bool.and_eq_true, Bool.and_eq_true] at hall
    obtain ⟨⟨hxs, hys⟩, hrest⟩ := hall
    obtain ⟨x, hx⟩ := Option.isSome_iff_exists.mp hxs
    obtain ⟨y, hy⟩ := Option.isSome_iff_exists.mp hys
    have hih := ih (g.add_node (r.node_number.getD i) x y r.z_coordinate
      (initRowValues vn r)) (i + 1) hrest
    constructor
    · simpa only [List.cons_append, initGo, hx, hy] using hih.1
    · simpa only [initGo, hx, hy] using hih.2

/-- C10: initiate_grid is not atomic on malformed input.  For a record
list whose well formed records rs1 are followed by a record m lacking
x_coordinate or y_coordinate (m not being the first record), the call
with clear_first true clears the prior nodes, returns the failure flag
False without raising, and leaves exactly the grid that loading the well
formed prefix rs1 alone would leave: the nodes built before the malformed
record stay, with no rollback to the prior state. -/
theorem C10_initiate_grid_not_atomic :
    ∀ (g : Grid) (rs1 : List GridRow) (m : GridRow) (rs2 : List GridRow)
      (vn : Option String),
      rs1.all (fun r => r.x_coordinate.isSome && r.y_coordinate.isSome) = true →
      (m.x_coordinate.isNone || m.y_coordinate.isNone) = true →
      rs1.isEmpty = false →
      Grid.initiate_grid g (rs1 ++ m :: rs2) vn true =
        (false, (Grid.initiate_grid g rs1 vn true).2) ∧
      (Grid.initiate_grid g rs1 vn true).1 = true := by
  intro g rs1 m rs2 vn hall hm _
  simp only [Grid.initiate_grid]
  exact initGo_prefix vn m rs2 hm rs1 _ 0 hall

/-- Witness for C10: a prior grid with one node, one well formed record,
then a record missing its y_coordinate. -/
theorem C10_initiate_grid_not_atomic_witness :
    Grid.initiate_grid c10prior ([c10r1] ++ c10bad :: []) (some "p") true =
      (false, (Grid.initiate_grid c10prior [c10r1] (some "p") true).2) ∧
    (Grid.initiate_grid c10prior [c10r1] (some "p") true).1 = true :=
  C10_initiate_grid_not_atomic c10prior [c10r1] c10bad [] (some "p")
    (by with_unfolding_all rfl) (by with_unfolding_all rfl)
    (by with_unfolding_all rfl)

end USCI
